import Mathlib

/-!
Verification of the Task Management API (`task-management-api/main.py`).

The service exposes three GET routes (`/`, `/tasks/{task_id}`, `/search`)
whose handlers are pure functions of the request parameters.  We embed the
handlers directly from the source and model the framework's request-binding
layer (integer parsing of path/query parameters, the 422 validation-error
shape, and 404 for unmatched routes) from the specification, since that
layer lives in the web framework, not in this repository.
-/

/-! ## Response data shapes -/

/-- Body of `GET /` (`get_welcome_message` in `main.py`). -/
structure WelcomeResponse where
  message : String
  version : String
  docs : String
  status : String
deriving DecidableEq

/-- Body of `GET /tasks/{task_id}` (`get_task_by_id` in `main.py`). -/
structure TaskResponse where
  task_id : Int
  title : String
  description : String
  status : String
  priority : String
  created_at : String
deriving DecidableEq

/-- The `filters` sub-object of the search response. -/
structure Filters where
  status : Option String
  limit : Int
  offset : Int
deriving DecidableEq

/-- One element of the `results` array of the search response.
`relevance_score` is a literal decimal constant in the source; we model it
as a rational number. -/
structure SearchResult where
  task_id : Int
  title : String
  status : String
  relevance_score : ℚ
deriving DecidableEq

/-- Body of `GET /search` (`search_tasks` in `main.py`). -/
structure SearchResponse where
  query : String
  filters : Filters
  total_results : Int
  results : List SearchResult
deriving DecidableEq

/-- One entry of the `detail` array of a 422 validation-error body:
its `type` tag and the `loc` path identifying the offending field. -/
structure ValidationError where
  type : String
  loc : List String
deriving DecidableEq

/-- An HTTP response of this service: a 200 body of one of the three
route-specific shapes, a 422 validation error, or a 404. -/
inductive Response where
  | welcome (body : WelcomeResponse)
  | task (body : TaskResponse)
  | search (body : SearchResponse)
  | validationError (detail : List ValidationError)
  | notFound
deriving DecidableEq

/-- The HTTP status code of a response. -/
def statusCode : Response → Nat
  | .welcome _ => 200
  | .task _ => 200
  | .search _ => 200
  | .validationError _ => 422
  | .notFound => 404

/-- The `detail` array of a response (empty for non-422 responses). -/
def responseDetail : Response → List ValidationError
  | .validationError d => d
  | _ => []

/-! ## Handlers, embedded from `main.py` -/

/-- Handler of `GET /` from `main.py`: a constant welcome payload. -/
def get_welcome_message : WelcomeResponse :=
  { message := "Welcome to the Task Management API!"
    version := "1.0.0"
    docs := "/docs"
    status := "operational" }

/-- Handler of `GET /tasks/{task_id}` from `main.py`.  The title and
description interpolate the integer id (Python `str(n)` and Lean
`toString (n : Int)` agree on all integers); the remaining fields are
hardcoded constants. -/
def get_task_by_id (task_id : Int) : TaskResponse :=
  { task_id := task_id
    title := "Task #" ++ toString task_id
    description := "This is task number " ++ toString task_id
    status := "pending"
    priority := "medium"
    created_at := "2026-01-09T00:00:00Z" }

/-- Python's `x or d` for `x : str | None`: the default is used when `x`
is `None` or the empty string (both falsy), as in `status or "pending"`
in `search_tasks`. -/
def pyOrStr (x : Option String) (d : String) : String :=
  match x with
  | none => d
  | some s => if s = "" then d else s

/-- Handler of `GET /search` from `main.py`: echoes the bound parameters
and synthesizes exactly two result records. -/
def search_tasks (q : String) (limit : Int) (offset : Int)
    (status : Option String) : SearchResponse :=
  { query := q
    filters := { status := status, limit := limit, offset := offset }
    total_results := 42
    results :=
      [ { task_id := offset + 1
          title := "Task matching \x27" ++ q ++ "\x27"
          status := pyOrStr status "pending"
          relevance_score := 0.95 }
      , { task_id := offset + 2
          title := "Another task for \x27" ++ q ++ "\x27"
          status := pyOrStr status "in_progress"
          relevance_score := 0.87 } ] }

/-! ## Request binding, modelled from the spec -/

/-- All-digit parse of a character list into a natural number
(most significant digit first). -/
def parseDigitsAux : List Char → Nat → Option Nat
  | [], acc => some acc
  | c :: rest, acc =>
    if c.isDigit then parseDigitsAux rest (acc * 10 + (c.toNat - 48))
    else none

/-- Parse a non-empty all-digit character list into a natural number. -/
def parseDigits : List Char → Option Nat
  | [] => none
  | cs => parseDigitsAux cs 0

/-- Modelled from the spec: the framework's conversion of a parameter
literal to a signed integer ("must parse as a signed integer; any
non-integer literal ... fails parameter-binding").  An optional sign
followed by one or more decimal digits succeeds; everything else
(empty string, floats, words, UUIDs, embedded punctuation) fails. -/
def parseSignedInt (s : String) : Option Int :=
  match s.data with
  | '-' :: rest => (parseDigits rest).map (fun n => -(n : Int))
  | '+' :: rest => (parseDigits rest).map (fun n => (n : Int))
  | cs => (parseDigits cs).map (fun n => (n : Int))

/-- A request: the path split into segments (so `/tasks/7` is
`["tasks", "7"]` and a trailing slash leaves an empty final segment),
plus the query parameters as an association list. -/
structure Request where
  path : List String
  query : List (String × String)
deriving DecidableEq

/-- First value bound to a query-parameter name, if any. -/
def getParam : List (String × String) → String → Option String
  | [], _ => none
  | (k, v) :: rest, name => if k = name then some v else getParam rest name

/-- Modelled from the spec: binding of an optional integer query
parameter.  Absent yields the declared default; a literal that parses
as a signed integer yields its value; anything else is an
`int_parsing` validation error naming the field. -/
def bindIntParam (raw : Option String) (deflt : Int) (field : String) :
    Except ValidationError Int :=
  match raw with
  | none => .ok deflt
  | some s =>
    match parseSignedInt s with
    | some n => .ok n
    | none => .error { type := "int_parsing", loc := ["query", field] }

/-- Modelled from the spec: the binding layer of `GET /search`.  `q` is
required (`missing` error when absent), `limit`/`offset` are optional
integers with defaults 10/0, `status` is an optional passthrough string;
on any binding failure the response is a 422 whose `detail` lists the
errors in parameter-declaration order, otherwise the handler runs. -/
def search_route (query : List (String × String)) : Response :=
  match getParam query "q",
        bindIntParam (getParam query "limit") 10 "limit",
        bindIntParam (getParam query "offset") 0 "offset" with
  | some q, .ok l, .ok o =>
    .search (search_tasks q l o (getParam query "status"))
  | qv, lr, orr =>
    .validationError
      ((match qv with
        | none => [{ type := "missing", loc := ["query", "q"] }]
        | some _ => []) ++
       (match lr with
        | .error e => [e]
        | .ok _ => []) ++
       (match orr with
        | .error e => [e]
        | .ok _ => []))

/-- Modelled from the spec: the binding layer of `GET /tasks/{task_id}`.
The path pattern requires a non-empty segment (an empty one means the path
was `/tasks/`, which matches no route: 404); the segment must parse as a
signed integer (otherwise 422 with an `int_parsing` error locating
`task_id`); on success the handler runs. -/
def tasks_route (seg : String) : Response :=
  if seg = "" then .notFound
  else
    match parseSignedInt seg with
    | some n => .task (get_task_by_id n)
    | none => .validationError [{ type := "int_parsing", loc := ["path", "task_id"] }]

/-- Modelled from the spec: the router.  `/` serves the welcome message,
`/tasks/{task_id}` and `/search` bind their parameters, every other path
is 404. -/
def route (req : Request) : Response :=
  match req.path with
  | [] => .welcome get_welcome_message
  | ["tasks", seg] => tasks_route seg
  | ["search"] => search_route req.query
  | _ => .notFound

/-- "title embeds q": the string `t` contains `sub` as a substring. -/
def embedsStr (t sub : String) : Prop :=
  ∃ pre post, t = pre ++ sub ++ post

/-! ## Shared lemmas about the binding layer -/

theorem route_search (qs : List (String × String)) :
    route ⟨["search"], qs⟩ = search_route qs := rfl

theorem route_tasks (seg : String) (qs : List (String × String)) :
    route ⟨["tasks", seg], qs⟩ = tasks_route seg := rfl

theorem bindIntParam_parse (s : String) (d : Int) (f : String) (n : Int)
    (h : parseSignedInt s = some n) : bindIntParam (some s) d f = .ok n := by
  simp only [bindIntParam, h]

theorem bindIntParam_fail (s : String) (d : Int) (f : String)
    (h : parseSignedInt s = none) :
    bindIntParam (some s) d f = .error { type := "int_parsing", loc := ["query", f] } := by
  simp only [bindIntParam, h]

theorem search_route_ok (qs : List (String × String)) (q : String) (l o : Int)
    (hq : getParam qs "q" = some q)
    (hl : bindIntParam (getParam qs "limit") 10 "limit" = .ok l)
    (ho : bindIntParam (getParam qs "offset") 0 "offset" = .ok o) :
    search_route qs = .search (search_tasks q l o (getParam qs "status")) := by
  unfold search_route
  rw [hq, hl, ho]

theorem search_route_missing_q (qs : List (String × String))
    (h : getParam qs "q" = none) :
    ∃ rest, search_route qs =
      .validationError ({ type := "missing", loc := ["query", "q"] } :: rest) := by
  unfold search_route
  rw [h]
  rcases bindIntParam (getParam qs "limit") 10 "limit" with el | vl <;>
    rcases bindIntParam (getParam qs "offset") 0 "offset" with eo | vo <;>
    exact ⟨_, rfl⟩

theorem search_route_err_limit (qs : List (String × String)) (q bs : String)
    (hq : getParam qs "q" = some q) (hbs : getParam qs "limit" = some bs)
    (h : parseSignedInt bs = none) :
    statusCode (search_route qs) = 422 := by
  unfold search_route
  rw [hq, hbs, bindIntParam_fail bs 10 "limit" h]
  rcases bindIntParam (getParam qs "offset") 0 "offset" with eo | vo <;> rfl

theorem search_route_err_offset (qs : List (String × String)) (q bs : String)
    (hq : getParam qs "q" = some q) (hbs : getParam qs "offset" = some bs)
    (h : parseSignedInt bs = none) :
    statusCode (search_route qs) = 422 := by
  unfold search_route
  rw [hq, hbs, bindIntParam_fail bs 0 "offset" h]
  rcases bindIntParam (getParam qs "limit") 10 "limit" with el | vl <;> rfl

theorem parseSignedInt_empty : parseSignedInt "" = none := rfl


theorem search_tasks_titles_embed (q : String) (l o : Int) (st : Option String) :
    ∀ r ∈ (search_tasks q l o st).results, embedsStr r.title q := by
  intro r hr
  simp only [search_tasks, List.mem_cons, List.not_mem_nil, or_false] at hr
  rcases hr with h | h <;> subst h
  · exact ⟨"Task matching \x27", "\x27", rfl⟩
  · exact ⟨"Another task for \x27", "\x27", rfl⟩

/-! ## The claims -/

/-- Claim C1: for every valid GET /search request (q supplied, limit and
offset integer literals) the 200 response has total_results 42 and exactly
two result records whose task_id fields are offset+1 and offset+2 in order,
whose titles embed the query string q, and whose status fields default to
"pending" and "in_progress" when no status filter is supplied; when a status
filter is supplied, the filters object echoes the supplied status, limit
and offset. -/
theorem spec_c1 (q s ls os : String) (l o : Int)
    (hl : parseSignedInt ls = some l) (ho : parseSignedInt os = some o) :
    (route ⟨["search"], [("q", q), ("limit", ls), ("offset", os)]⟩ =
      .search
        { query := q
          filters := { status := none, limit := l, offset := o }
          total_results := 42
          results :=
            [ { task_id := o + 1, title := "Task matching \x27" ++ q ++ "\x27",
                status := "pending", relevance_score := 0.95 }
            , { task_id := o + 2, title := "Another task for \x27" ++ q ++ "\x27",
                status := "in_progress", relevance_score := 0.87 } ] } ∧
      ∀ r ∈ (search_tasks q l o none).results, embedsStr r.title q) ∧
    (∃ body,
      route ⟨["search"], [("q", q), ("limit", ls), ("offset", os), ("status", s)]⟩ =
        .search body ∧
      body.filters = { status := some s, limit := l, offset := o } ∧
      body.total_results = 42 ∧
      body.results.map SearchResult.task_id = [o + 1, o + 2] ∧
      ∀ r ∈ body.results, embedsStr r.title q) := by
  refine ⟨⟨?_, search_tasks_titles_embed q l o none⟩, ?_⟩
  · rw [route_search,
      search_route_ok [("q", q), ("limit", ls), ("offset", os)] q l o rfl
        (bindIntParam_parse ls 10 "limit" l hl) (bindIntParam_parse os 0 "offset" o ho)]
    rfl
  · refine ⟨search_tasks q l o (some s), ?_, rfl, rfl, rfl,
      search_tasks_titles_embed q l o (some s)⟩
    rw [route_search]
    exact search_route_ok [("q", q), ("limit", ls), ("offset", os), ("status", s)] q l o rfl
      (bindIntParam_parse ls 10 "limit" l hl) (bindIntParam_parse os 0 "offset" o ho)

theorem spec_c1_witness :
    route ⟨["search"], [("q", "test"), ("limit", "5"), ("offset", "10")]⟩ =
      .search
        { query := "test"
          filters := { status := none, limit := 5, offset := 10 }
          total_results := 42
          results :=
            [ { task_id := 11, title := "Task matching \x27test\x27",
                status := "pending", relevance_score := 0.95 }
            , { task_id := 12, title := "Another task for \x27test\x27",
                status := "in_progress", relevance_score := 0.87 } ] } :=
  (spec_c1 "test" "completed" "5" "10" 5 10 rfl rfl).1.1

/-- Claim C2: for every integer n, GET /tasks/{n} returns 200 with
task_id n, title "Task #" followed by str(n) (so the title contains
str(n)), status "pending", priority "medium", and created_at equal to the
hardcoded constant timestamp, independent of the clock and of n. -/
theorem spec_c2 (s : String) (n : Int) (h : parseSignedInt s = some n) :
    statusCode (route ⟨["tasks", s], []⟩) = 200 ∧
    route ⟨["tasks", s], []⟩ =
      .task
        { task_id := n
          title := "Task #" ++ toString n
          description := "This is task number " ++ toString n
          status := "pending"
          priority := "medium"
          created_at := "2026-01-09T00:00:00Z" } ∧
    embedsStr ("Task #" ++ toString n) (toString n) := by
  have hs : s ≠ "" := by
    intro he
    rw [he, parseSignedInt_empty] at h
    exact Option.noConfusion h
  have e : route ⟨["tasks", s], []⟩ = .task (get_task_by_id n) := by
    rw [route_tasks]
    unfold tasks_route
    rw [if_neg hs, h]
  exact ⟨by rw [e]; rfl, by rw [e]; rfl, ⟨"Task #", "", by simp⟩⟩

theorem spec_c2_witness :
    statusCode (route ⟨["tasks", "-7"], []⟩) = 200 :=
  (spec_c2 "-7" (-7) rfl).1

/-- Claim C3: a non-empty path segment that does not parse as a signed
integer makes GET /tasks/{segment} return 422 with detail[0] of type
"int_parsing" locating task_id; a segment that parses as a signed integer
returns 200. -/
theorem spec_c3 (seg : String) (hne : seg ≠ "") :
    (parseSignedInt seg = none →
      statusCode (route ⟨["tasks", seg], []⟩) = 422 ∧
      (responseDetail (route ⟨["tasks", seg], []⟩)).head? =
        some { type := "int_parsing", loc := ["path", "task_id"] }) ∧
    (∀ n : Int, parseSignedInt seg = some n →
      statusCode (route ⟨["tasks", seg], []⟩) = 200) := by
  constructor
  · intro h
    have e : route ⟨["tasks", seg], []⟩ =
        .validationError [{ type := "int_parsing", loc := ["path", "task_id"] }] := by
      rw [route_tasks]
      unfold tasks_route
      rw [if_neg hne, h]
    rw [e]
    exact ⟨rfl, rfl⟩
  · intro n h
    have e : route ⟨["tasks", seg], []⟩ = .task (get_task_by_id n) := by
      rw [route_tasks]
      unfold tasks_route
      rw [if_neg hne, h]
    rw [e]
    rfl

theorem spec_c3_witness :
    (statusCode (route ⟨["tasks", "12.3"], []⟩) = 422 ∧
      (responseDetail (route ⟨["tasks", "12.3"], []⟩)).head? =
        some { type := "int_parsing", loc := ["path", "task_id"] }) ∧
    statusCode (route ⟨["tasks", "12"], []⟩) = 200 :=
  ⟨(spec_c3 "12.3" (by decide)).1 rfl, (spec_c3 "12" (by decide)).2 12 rfl⟩

/-- Claim C4: GET /search without q yields 422 whose detail starts with a
"missing" error whose loc references "q"; GET /search with q equal to the
empty string yields 200 with body.query equal to the empty string. -/
theorem spec_c4 (qs : List (String × String)) (h : getParam qs "q" = none) :
    (statusCode (route ⟨["search"], qs⟩) = 422 ∧
      ∃ e rest, responseDetail (route ⟨["search"], qs⟩) = e :: rest ∧
        e.type = "missing" ∧ "q" ∈ e.loc) ∧
    (∃ body, route ⟨["search"], [("q", "")]⟩ = .search body ∧ body.query = "" ∧
      statusCode (route ⟨["search"], [("q", "")]⟩) = 200) := by
  constructor
  · obtain ⟨rest, hr⟩ := search_route_missing_q qs h
    rw [route_search, hr]
    exact ⟨rfl, _, rest, rfl, rfl, by decide⟩
  · refine ⟨search_tasks "" 10 0 none, ?_, rfl, ?_⟩
    · rw [route_search]
      exact search_route_ok [("q", "")] "" 10 0 rfl rfl rfl
    · rw [route_search, search_route_ok [("q", "")] "" 10 0 rfl rfl rfl]
      rfl

theorem spec_c4_witness :
    statusCode (route ⟨["search"], []⟩) = 422 :=
  (spec_c4 [] rfl).1.1

/-- Claim C5: with q supplied, absent limit and offset default to 10 and 0;
a non-integer limit or offset literal yields 422; negative limit and offset
values are accepted with 200 and passed through unchanged into filters, the
offset also into the computed task_id values. -/
theorem spec_c5 (q ls os bs : String) (l o : Int)
    (hl : parseSignedInt ls = some l) (ho : parseSignedInt os = some o)
    (_hln : l < 0) (_hon : o < 0) (hbad : parseSignedInt bs = none) :
    (route ⟨["search"], [("q", q)]⟩ = .search (search_tasks q 10 0 none) ∧
      (search_tasks q 10 0 none).filters.limit = 10 ∧
      (search_tasks q 10 0 none).filters.offset = 0) ∧
    (statusCode (route ⟨["search"], [("q", q), ("limit", bs)]⟩) = 422 ∧
      statusCode (route ⟨["search"], [("q", q), ("offset", bs)]⟩) = 422) ∧
    (statusCode (route ⟨["search"], [("q", q), ("limit", ls), ("offset", os)]⟩) = 200 ∧
      ∃ body,
        route ⟨["search"], [("q", q), ("limit", ls), ("offset", os)]⟩ = .search body ∧
        body.filters.limit = l ∧ body.filters.offset = o ∧
        body.results.map SearchResult.task_id = [o + 1, o + 2]) := by
  refine ⟨⟨?_, rfl, rfl⟩, ⟨?_, ?_⟩, ?_, ?_⟩
  · rw [route_search]
    exact search_route_ok [("q", q)] q 10 0 rfl rfl rfl
  · rw [route_search]
    exact search_route_err_limit _ q bs rfl rfl hbad
  · rw [route_search]
    exact search_route_err_offset _ q bs rfl rfl hbad
  · rw [route_search,
      search_route_ok [("q", q), ("limit", ls), ("offset", os)] q l o rfl
        (bindIntParam_parse ls 10 "limit" l hl) (bindIntParam_parse os 0 "offset" o ho)]
    rfl
  · refine ⟨search_tasks q l o none, ?_, rfl, rfl, rfl⟩
    rw [route_search]
    exact search_route_ok [("q", q), ("limit", ls), ("offset", os)] q l o rfl
      (bindIntParam_parse ls 10 "limit" l hl) (bindIntParam_parse os 0 "offset" o ho)

theorem spec_c5_witness :
    statusCode (route ⟨["search"], [("q", "test"), ("limit", "-1"), ("offset", "-10")]⟩) = 200 :=
  (spec_c5 "test" "-1" "-10" "abc" (-1) (-10) rfl rfl (by decide) (by decide) rfl).2.2.1

/-- Claim C6: on a successful GET /search the supplied q and status values
are reflected verbatim in the response: body.query equals q and
filters.status equals the supplied status, with no alteration. -/
theorem spec_c6 (q s ls os : String) (l o : Int)
    (hl : parseSignedInt ls = some l) (ho : parseSignedInt os = some o) :
    ∃ body,
      route ⟨["search"], [("q", q), ("limit", ls), ("offset", os), ("status", s)]⟩ =
        .search body ∧
      body.query = q ∧ body.filters.status = some s := by
  refine ⟨search_tasks q l o (some s), ?_, rfl, rfl⟩
  rw [route_search]
  exact search_route_ok [("q", q), ("limit", ls), ("offset", os), ("status", s)] q l o rfl
    (bindIntParam_parse ls 10 "limit" l hl) (bindIntParam_parse os 0 "offset" o ho)

theorem spec_c6_witness :
    ∃ body,
      route ⟨["search"], [("q", "  A b%20"), ("limit", "3"), ("offset", "4"),
        ("status", "DONE ")]⟩ = .search body ∧
      body.query = "  A b%20" ∧ body.filters.status = some "DONE " :=
  spec_c6 "  A b%20" "DONE " "3" "4" 3 4 rfl rfl

/-- Claim C7: the handlers are deterministic: two requests to the same
route with identical path and query parameters produce identical response
bodies; the router is a pure function of the request, with created_at a
fixed constant. -/
theorem spec_c7 (r₁ r₂ : Request) (h : r₁ = r₂) : route r₁ = route r₂ := by
  rw [h]

theorem spec_c7_witness :
    route ⟨["tasks", "1"], []⟩ = route ⟨["tasks", "1"], []⟩ :=
  spec_c7 ⟨["tasks", "1"], []⟩ ⟨["tasks", "1"], []⟩ rfl

/-- Claim C8: GET /tasks/ with an empty final path segment matches no
route and returns 404, not 422 and not 200. -/
theorem spec_c8 :
    route ⟨["tasks", ""], []⟩ = .notFound ∧
    statusCode (route ⟨["tasks", ""], []⟩) = 404 ∧
    statusCode (route ⟨["tasks", ""], []⟩) ≠ 422 ∧
    statusCode (route ⟨["tasks", ""], []⟩) ≠ 200 :=
  ⟨rfl, rfl, by decide, by decide⟩

/-- Claim C9: GET /search with status supplied as the empty string reports
filters.status as the empty string while both result records keep the
default statuses "pending" and "in_progress": the Python `status or ...`
fallback treats an empty string like an absent filter. -/
theorem spec_c9 (q : String) :
    ∃ body,
      route ⟨["search"], [("q", q), ("status", "")]⟩ = .search body ∧
      body.filters.status = some "" ∧
      body.results.map SearchResult.status = ["pending", "in_progress"] := by
  refine ⟨search_tasks q 10 0 (some ""), ?_, rfl, rfl⟩
  rw [route_search]
  exact search_route_ok [("q", q), ("status", "")] q 10 0 rfl rfl rfl

/-- Claim C10: the limit parameter influences nothing in the success
response except filters.limit: two valid limit values with the same q,
offset and status yield responses agreeing on query, total_results and the
whole results sequence, which always has length 2 with relevance scores
0.95 and 0.87. -/
theorem spec_c10 (q os st ls₁ ls₂ : String) (l₁ l₂ o : Int)
    (hl₁ : parseSignedInt ls₁ = some l₁) (hl₂ : parseSignedInt ls₂ = some l₂)
    (ho : parseSignedInt os = some o) :
    ∃ b₁ b₂,
      route ⟨["search"], [("q", q), ("limit", ls₁), ("offset", os), ("status", st)]⟩ =
        .search b₁ ∧
      route ⟨["search"], [("q", q), ("limit", ls₂), ("offset", os), ("status", st)]⟩ =
        .search b₂ ∧
      b₁.filters.limit = l₁ ∧ b₂.filters.limit = l₂ ∧
      b₁.query = b₂.query ∧ b₁.total_results = b₂.total_results ∧
      b₁.results = b₂.results ∧
      b₁.results.length = 2 ∧
      b₁.results.map SearchResult.relevance_score = [0.95, 0.87] := by
  refine ⟨search_tasks q l₁ o (some st), search_tasks q l₂ o (some st),
    ?_, ?_, rfl, rfl, rfl, rfl, rfl, rfl, rfl⟩
  · rw [route_search]
    exact search_route_ok [("q", q), ("limit", ls₁), ("offset", os), ("status", st)] q l₁ o rfl
      (bindIntParam_parse ls₁ 10 "limit" l₁ hl₁) (bindIntParam_parse os 0 "offset" o ho)
  · rw [route_search]
    exact search_route_ok [("q", q), ("limit", ls₂), ("offset", os), ("status", st)] q l₂ o rfl
      (bindIntParam_parse ls₂ 10 "limit" l₂ hl₂) (bindIntParam_parse os 0 "offset" o ho)

theorem spec_c10_witness :
    ∃ b₁ b₂,
      route ⟨["search"], [("q", "x"), ("limit", "1"), ("offset", "0"), ("status", "done")]⟩ =
        .search b₁ ∧
      route ⟨["search"], [("q", "x"), ("limit", "100"), ("offset", "0"), ("status", "done")]⟩ =
        .search b₂ ∧
      b₁.filters.limit = 1 ∧ b₂.filters.limit = 100 ∧
      b₁.query = b₂.query ∧ b₁.total_results = b₂.total_results ∧
      b₁.results = b₂.results ∧
      b₁.results.length = 2 ∧
      b₁.results.map SearchResult.relevance_score = [0.95, 0.87] :=
  spec_c10 "x" "0" "done" "1" "100" 1 100 0 rfl rfl rfl
